import Mathlib

/-!
Verification of the exam-session admission and submission-storage subsystem of
`app.py` (the lab-exam portal).  The definitions below are a shallow embedding
of the Python source:

* Wall-clock datetimes are modelled as `Int` seconds (a `timedelta` of `m`
  minutes is `m * 60`).
* Python `dict`s (`st.session_state.teachers`, `st.session_state.active_passcodes`)
  are association lists with insertion-order semantics: assignment to an
  existing key updates it in place, assignment to a fresh key appends.
* The on-disk submissions tree `SUBMISSIONS_ROOT/<lab>/<student>/<filename>`
  is modelled as a list of `LabFile` entries carrying the file bytes.
* Randomness (`random.choices` in `gen_passcode`) is an explicit argument:
  the list of characters drawn.
* Streamlit UI plumbing (widgets, messages, logging, reruns) is dropped; each
  button handler becomes a function from state and inputs to state (and, for
  the student portal, an explicit result code in place of the UI message).
-/

namespace LabExams

/-- File contents, as a list of byte values. -/
abbrev Bytes := List Nat

/-- One entry of `st.session_state.teachers` (a value of the teachers dict):
the fields registered in `register_user("teacher")` that the admission and
dashboard logic reads.  `password_hash`, `name` and `phone` only feed the
credential/OTP flows, which are outside the submission subsystem, and are
omitted.  Times are `Int` seconds. -/
structure TeacherData where
  lab : String
  uploads_allowed : Bool
  exam_start : Option Int
  exam_end : Option Int
deriving DecidableEq

/-- One entry of `st.session_state.active_passcodes`: the dict stored by the
"Generate New Passcode" handler in `teacher_dashboard`, with keys
`teacher`, `lab`, `start`, `end`.  (`end` is a Lean keyword, hence `end_`.) -/
structure PassInfo where
  teacher : String
  lab : String
  start : Int
  end_ : Int
deriving DecidableEq

/-- One file of the on-disk submissions tree: the file at
`SUBMISSIONS_ROOT/<lab>/<student>/<fname>` holding `content`. -/
structure LabFile where
  lab : String
  student : String
  fname : String
  content : Bytes
deriving DecidableEq

/-- One element of the list returned by `walk_lab_files`: the source also
carries `display` (a formatted string) and `path` (both derived from the
fields below); they are omitted. -/
structure WalkEntry where
  student : String
  filename : String
  serial : Nat
deriving DecidableEq

/-- Outcome of the "Submit Paper" handler in `student_portal`, one constructor
per `st.error`/`st.warning`/`st.success` exit of the handler, in source order.
`keyError` models the `KeyError` a lookup `teachers[teacher_choice]` would
raise for an unknown teacher. -/
inductive SubmitResult where
  | noTeacherSelected
  | invalidPasscode
  | teacherMismatch
  | keyError
  | examNotActive
  | uploadsDisabled
  | missingFields
  | alreadySubmitted
  | success
deriving DecidableEq

/-- The mutable state the submission subsystem touches: the two session-state
dicts plus the submissions file tree. -/
structure AppState where
  teachers : List (String × TeacherData)
  active_passcodes : List (String × PassInfo)
  submissions : List LabFile
deriving DecidableEq

/-- Python dict read `d.get(k)` / `d[k]`: value of the first (unique) entry
with key `k`. -/
def dictGet {α : Type} (k : String) (d : List (String × α)) : Option α :=
  (d.find? (fun p => p.1 == k)).map (fun p => p.2)

/-- In-place update of the value stored at key `k` (Python mutates the dict
value object; keys and order are unchanged). -/
def mapUpdate {α : Type} (k : String) (f : α → α) (d : List (String × α)) :
    List (String × α) :=
  d.map (fun p => if p.1 = k then (p.1, f p.2) else p)

/-- Python dict assignment `d[k] = v`: update in place if `k` is present,
otherwise append at the end (insertion order). -/
def dictSet {α : Type} (k : String) (v : α) (d : List (String × α)) :
    List (String × α) :=
  if (dictGet k d).isSome then mapUpdate k (fun _ => v) d else d ++ [(k, v)]

/-- Code-point comparison of char lists: the order Python's `sorted` uses on
the decoded directory names. -/
def charListLe : List Char → List Char → Bool
  | [], _ => true
  | _ :: _, [] => false
  | a :: as, b :: bs =>
    if a.toNat < b.toNat then true
    else if b.toNat < a.toNat then false
    else charListLe as bs

/-- `a <= b` on strings by code points, as Python's `sorted` orders names. -/
def strLe (a b : String) : Bool := charListLe a.toList b.toList

/-- Order in which `walk_lab_files` visits files: the nested
`for student in sorted(listdir(lab_folder)) / for fname in sorted(listdir(sdir))`
walk visits files in lexicographic (student, fname) order. -/
def fileLe (a b : LabFile) : Bool :=
  if a.student == b.student then strLe a.fname b.fname else strLe a.student b.student

/-- Insert one file into an already ordered listing (insertion sort; on the
distinct paths of a real directory tree this is exactly the sorted listing). -/
def insertSorted (f : LabFile) : List LabFile → List LabFile
  | [] => [f]
  | g :: gs => if fileLe f g then f :: g :: gs else g :: insertSorted f gs

/-- The sorted listing of a set of files, i.e. the visit order of
`walk_lab_files`. -/
def sortFiles : List LabFile → List LabFile
  | [] => []
  | f :: fs => insertSorted f (sortFiles fs)

/-- The `serial = 1; ...; serial += 1` numbering loop of `walk_lab_files`:
the n-th visited file gets serial `n` (starting from the given counter). -/
def assignSerials : List LabFile → Nat → List WalkEntry
  | [], _ => []
  | f :: fs, n => ⟨f.student, f.fname, n⟩ :: assignSerials fs (n + 1)

/-- `walk_lab_files(lab_folder)`: lists the files under
`SUBMISSIONS_ROOT/<lab>`, in sorted student / sorted filename order, numbering
them `1, 2, ...` in visit order.  The serial is recomputed from the directory
walk on every call. -/
def walk_lab_files (fs : List LabFile) (lab : String) : List WalkEntry :=
  assignSerials (sortFiles (fs.filter (fun f => f.lab == lab))) 1

/-- `open(filepath, "wb"); f.write(bytes)` at `lab/student/fname`: replaces
whatever was at that path with the given bytes. -/
def writeFile (fs : List LabFile) (lab student fname : String) (content : Bytes) :
    List LabFile :=
  fs.filter (fun f => !(f.lab == lab && f.student == student && f.fname == fname))
    ++ [⟨lab, student, fname, content⟩]

/-- Contents of the file at `lab/student/fname`, if it exists. -/
def fileContent (fs : List LabFile) (lab student fname : String) : Option Bytes :=
  (fs.find? (fun f => f.lab == lab && f.student == student && f.fname == fname)).map
    (fun f => f.content)

/-- The filesystem during the save step of `student_portal`:
`open(filepath, "wb")` creates (or truncates) the file at the final path
immediately, so after `k` bytes have been written the final path holds
`content.take k`; `k = content.length` is the completed write.  The source
writes straight to the final path — there is no temporary file and no rename. -/
def writeStepState (fs : List LabFile) (lab student fname : String)
    (content : Bytes) (k : Nat) : List LabFile :=
  writeFile fs lab student fname (content.take k)

/-- The "Submit Paper" handler of `student_portal`, check for check in source
order.  `uploaded` is the file uploader's value (`none` when no file chosen),
as `(filename, bytes)`.  `source_address` is the client identity the spec
calls the source address; the handler never reads it (the source computes
only `get_server_ip()` and tracks no per-submission IP, per its own comment
"This example assumes no IP tracking per submission"). -/
def submitPaper (st : AppState) (teacher_choice passcode student_id : String)
    (uploaded : Option (String × Bytes)) (source_address : String) (now : Int) :
    SubmitResult × AppState :=
  if teacher_choice = "-- Select --" ∨ teacher_choice = "" then
    (SubmitResult.noTeacherSelected, st)
  else
    match dictGet passcode st.active_passcodes with
    | none => (SubmitResult.invalidPasscode, st)
    | some pass_info =>
      if ¬ pass_info.teacher = teacher_choice then
        (SubmitResult.teacherMismatch, st)
      else
        match dictGet teacher_choice st.teachers with
        | none => (SubmitResult.keyError, st)
        | some teacher_data =>
          if ¬ (pass_info.start ≤ now ∧ now ≤ pass_info.end_) then
            (SubmitResult.examNotActive, st)
          else if ¬ teacher_data.uploads_allowed then
            (SubmitResult.uploadsDisabled, st)
          else
            match uploaded with
            | none => (SubmitResult.missingFields, st)
            | some (fname, content) =>
              if student_id = "" then
                (SubmitResult.missingFields, st)
              else if ∃ e ∈ walk_lab_files st.submissions teacher_data.lab,
                  e.student = student_id then
                (SubmitResult.alreadySubmitted, st)
              else
                (SubmitResult.success,
                  { st with submissions :=
                      writeFile st.submissions teacher_data.lab student_id fname content })

/-- `gen_passcode`: joins the characters drawn by
`random.choices(ascii_uppercase + digits, k=6)`; the random draw is the
explicit argument. -/
def gen_passcode (draws : List Char) : String := String.mk draws

/-- The population `random.choices` draws from in `gen_passcode`. -/
def passcodeAlphabet : List Char := "ABCDEFGHIJKLMNOPQRSTUVWXYZ0123456789".toList

/-- The "Generate New Passcode" handler of `teacher_dashboard`: stores, under
the freshly drawn `code`, the teacher's lab and the *current* exam window
(defaults: `now` and `now + 1 hour`).  The write is a plain dict assignment —
no check against passcodes already present. -/
def generate_passcode (st : AppState) (teacher code : String) (now : Int) : AppState :=
  match dictGet teacher st.teachers with
  | none => st
  | some teacher_data =>
    let start := teacher_data.exam_start.getD now
    let end_ := teacher_data.exam_end.getD (now + 3600)
    { st with active_passcodes :=
        dictSet code ⟨teacher, teacher_data.lab, start, end_⟩ st.active_passcodes }

/-- Mutation of one teacher's record in place (`teacher_data[...] = ...`
followed by `save_json`). -/
def updateTeacher (st : AppState) (teacher : String) (f : TeacherData → TeacherData) :
    AppState :=
  { st with teachers := mapUpdate teacher f st.teachers }

/-- The "Extend Exam" handler of `teacher_dashboard`: requires `exam_end` to be
set ("Set exam time first." otherwise) and adds `extend_minutes` minutes to
it.  The `active_passcodes` entries are untouched. -/
def extend_exam (st : AppState) (teacher : String) (extend_minutes : Int) : AppState :=
  match dictGet teacher st.teachers with
  | none => st
  | some teacher_data =>
    match teacher_data.exam_end with
    | none => st
    | some current_end =>
      updateTeacher st teacher
        (fun t => { t with exam_end := some (current_end + extend_minutes * 60) })

/-- The "Toggle Uploads" handler of `teacher_dashboard`: reads the flag once
and stores its negation.  There is no boolean argument — the only uploads
mutation in the source is this toggle. -/
def toggle_uploads (st : AppState) (teacher : String) : AppState :=
  match dictGet teacher st.teachers with
  | none => st
  | some teacher_data =>
    updateTeacher st teacher
      (fun t => { t with uploads_allowed := !teacher_data.uploads_allowed })

/-! ### Concrete scenario states (used by witnesses and counterexamples) -/

/-- Teacher `t1`: lab `LabA`, uploads enabled, exam window `[0, 100]`. -/
def td1 : TeacherData := { lab := "LabA", uploads_allowed := true,
                           exam_start := some 0, exam_end := some 100 }

/-- Teacher `t2`: lab `LabB`, uploads enabled, exam window `[0, 100]`. -/
def td2 : TeacherData := { lab := "LabB", uploads_allowed := true,
                           exam_start := some 0, exam_end := some 100 }

/-- The passcode entry `t1` obtains for window `[0, 100]`. -/
def pi1 : PassInfo := { teacher := "t1", lab := "LabA", start := 0, end_ := 100 }

/-- Base state: two teachers, `t1` holding active passcode `AB12CD`, no
submissions yet. -/
def st0 : AppState :=
  { teachers := [("t1", td1), ("t2", td2)],
    active_passcodes := [("AB12CD", pi1)],
    submissions := [] }

/-- Student `S100`'s upload: `ans.pdf` with bytes `[1, 2, 3]`. -/
def uploadA : Option (String × Bytes) := some ("ans.pdf", [1, 2, 3])

/-- State after `S100` submits from `10.0.0.5` at time 10. -/
def st1 : AppState := (submitPaper st0 "t1" "AB12CD" "S100" uploadA "10.0.0.5" 10).2

/-- State after a submission by student `B` (for the serial-stability check). -/
def stB : AppState :=
  (submitPaper st0 "t1" "AB12CD" "B" (some ("ans.pdf", [1])) "10.0.0.5" 10).2

/-- State after a later submission by student `A`, whose id sorts before `B`. -/
def stBA : AppState :=
  (submitPaper stB "t1" "AB12CD" "A" (some ("a.pdf", [2])) "10.0.0.6" 11).2

/-- `st0` after the write of `S100`'s submission fails right after
`open(filepath, "wb")`, with 0 of the 3 bytes written: the truncated file
stays at the final path (the handler has no cleanup). -/
def stFail : AppState :=
  { st0 with submissions :=
      writeStepState st0.submissions "LabA" "S100" "ans.pdf" [1, 2, 3] 0 }

/-- `st0` after `t1` generates a fresh passcode `NEWC0D` at time 0. -/
def stGen : AppState := generate_passcode st0 "t1" "NEWC0D" 0

/-- `stGen` after `t1` extends the exam by 1 minute (new `exam_end` 160). -/
def stExt : AppState := extend_exam stGen "t1" 1

/-! ### Dictionary lemmas -/

theorem dictGet_mapUpdate_self {α : Type} (k : String) (f : α → α)
    (d : List (String × α)) :
    dictGet k (mapUpdate k f d) = (dictGet k d).map f := by
  induction d with
  | nil => rfl
  | cons p d ih =>
    by_cases h : p.1 = k
    · simp [dictGet, mapUpdate, h]
    · simp only [dictGet, mapUpdate] at ih ⊢
      simp only [List.map_cons, if_neg h]
      rw [List.find?_cons_of_neg _ (by simp [h]), List.find?_cons_of_neg _ (by simp [h])]
      exact ih

theorem dictGet_mapUpdate_ne {α : Type} {k t : String} (hne : ¬ k = t) (f : α → α)
    (d : List (String × α)) :
    dictGet k (mapUpdate t f d) = dictGet k d := by
  induction d with
  | nil => rfl
  | cons p d ih =>
    by_cases h : p.1 = t
    · have hpk : ¬ p.1 = k := fun e => hne (e ▸ h ▸ rfl)
      simp only [dictGet, mapUpdate] at ih ⊢
      simp only [List.map_cons, if_pos h]
      rw [List.find?_cons_of_neg _ (by simp [hpk]), List.find?_cons_of_neg _ (by simp [hpk])]
      exact ih
    · by_cases hk : p.1 = k
      · simp only [dictGet, mapUpdate] at ih ⊢
        simp only [List.map_cons, if_neg h]
        rw [List.find?_cons_of_pos _ (by simp [hk]), List.find?_cons_of_pos _ (by simp [hk])]
      · simp only [dictGet, mapUpdate] at ih ⊢
        simp only [List.map_cons, if_neg h]
        rw [List.find?_cons_of_neg _ (by simp [hk]), List.find?_cons_of_neg _ (by simp [hk])]
        exact ih

theorem dictGet_mapUpdate_isSome {α : Type} (k t : String) (f : α → α)
    {d : List (String × α)} {v : α} (h : dictGet k d = some v) :
    ∃ v', dictGet k (mapUpdate t f d) = some v' := by
  by_cases hkt : k = t
  · subst hkt
    exact ⟨f v, by rw [dictGet_mapUpdate_self, h]; rfl⟩
  · exact ⟨v, by rw [dictGet_mapUpdate_ne hkt]; exact h⟩

theorem dictGet_dictSet_self {α : Type} (k : String) (v : α) (d : List (String × α)) :
    dictGet k (dictSet k v d) = some v := by
  unfold dictSet
  by_cases h : (dictGet k d).isSome
  · rw [if_pos h, dictGet_mapUpdate_self]
    rcases Option.isSome_iff_exists.mp h with ⟨w, hw⟩
    simp [hw]
  · rw [if_neg h]
    have hn : d.find? (fun p => p.1 == k) = none := by
      cases ho : d.find? (fun p => p.1 == k) with
      | none => rfl
      | some w => exact absurd (by simp [dictGet, ho]) h
    unfold dictGet
    rw [List.find?_append, hn]
    simp

/-! ### Listing and serial lemmas -/

theorem mem_insertSorted {f g : LabFile} {l : List LabFile} :
    g ∈ insertSorted f l ↔ g = f ∨ g ∈ l := by
  induction l with
  | nil => simp [insertSorted]
  | cons a l ih =>
    by_cases h : fileLe f a = true
    · rw [insertSorted, if_pos h]
      simp only [List.mem_cons]
    · rw [insertSorted, if_neg h]
      simp only [List.mem_cons, ih]
      tauto

theorem mem_sortFiles {f : LabFile} {l : List LabFile} :
    f ∈ sortFiles l ↔ f ∈ l := by
  induction l with
  | nil => simp [sortFiles]
  | cons a l ih => simp [sortFiles, mem_insertSorted, ih]

theorem length_insertSorted (f : LabFile) (l : List LabFile) :
    (insertSorted f l).length = l.length + 1 := by
  induction l with
  | nil => rfl
  | cons a l ih =>
    by_cases h : fileLe f a = true
    · rw [insertSorted, if_pos h]
      simp
    · rw [insertSorted, if_neg h]
      simp [ih]

theorem length_sortFiles (l : List LabFile) : (sortFiles l).length = l.length := by
  induction l with
  | nil => rfl
  | cons a l ih => simp [sortFiles, length_insertSorted, ih]

theorem map_serial_assignSerials (l : List LabFile) (n : Nat) :
    (assignSerials l n).map WalkEntry.serial = List.range' n l.length := by
  induction l generalizing n with
  | nil => rfl
  | cons a l ih => simp [assignSerials, List.range'_succ, ih]

theorem exists_student_assignSerials {l : List LabFile} {s : String} (n : Nat)
    (h : ∃ f ∈ l, f.student = s) :
    ∃ e ∈ assignSerials l n, e.student = s := by
  induction l generalizing n with
  | nil => simp at h
  | cons a l ih =>
    obtain ⟨f, hf, hs⟩ := h
    rcases List.mem_cons.mp hf with rfl | hmem
    · exact ⟨⟨f.student, f.fname, n⟩, by simp [assignSerials], hs⟩
    · obtain ⟨e, he, hes⟩ := ih (n + 1) ⟨f, hmem, hs⟩
      exact ⟨e, by simp [assignSerials, he], hes⟩

theorem exists_student_walk {fs : List LabFile} {lab s : String}
    (h : ∃ f ∈ fs, f.lab = lab ∧ f.student = s) :
    ∃ e ∈ walk_lab_files fs lab, e.student = s := by
  obtain ⟨f, hf, hlab, hs⟩ := h
  refine exists_student_assignSerials 1 ⟨f, ?_, hs⟩
  exact mem_sortFiles.mpr (List.mem_filter.mpr ⟨hf, by simp [hlab]⟩)

/-! ### Storage lemmas -/

theorem find?_filter_not_none {α : Type} (q : α → Bool) (l : List α) :
    (l.filter (fun x => !q x)).find? q = none := by
  refine List.find?_eq_none.mpr (fun x hx => ?_)
  have hb := (List.mem_filter.mp hx).2
  simp only [Bool.not_eq_true'] at hb
  simp [hb]

theorem find?_filter_append {α : Type} (q : α → Bool) (e : α) (he : q e = true)
    (l : List α) :
    ((l.filter (fun x => !q x)) ++ [e]).find? q = some e := by
  rw [List.find?_append, find?_filter_not_none]
  rw [List.find?_cons_of_pos _ he]
  rfl

theorem fileContent_writeFile (fs : List LabFile) (lab student fname : String)
    (content : Bytes) :
    fileContent (writeFile fs lab student fname content) lab student fname
      = some content := by
  unfold fileContent writeFile
  rw [find?_filter_append _ _ (by simp)]
  rfl

/-! ### The duplicate check in `submitPaper` -/

/-- Core admission fact: whenever the session-side checks pass but some file
by the same student already sits under the teacher's lab folder, the handler
returns "You have already submitted your paper." and leaves the state alone.
The source address plays no role. -/
theorem submit_rejects_existing_student (st : AppState)
    (tc pc sid addr fname : String) (content : Bytes)
    (pass_info : PassInfo) (teacher_data : TeacherData) (now : Int)
    (htc1 : ¬ tc = "-- Select --") (htc2 : ¬ tc = "")
    (hpc : dictGet pc st.active_passcodes = some pass_info)
    (hteacher : pass_info.teacher = tc)
    (htd : dictGet tc st.teachers = some teacher_data)
    (hwin1 : pass_info.start ≤ now) (hwin2 : now ≤ pass_info.end_)
    (hup : teacher_data.uploads_allowed = true)
    (hsid : ¬ sid = "")
    (hdup : ∃ f ∈ st.submissions, f.lab = teacher_data.lab ∧ f.student = sid) :
    submitPaper st tc pc sid (some (fname, content)) addr now
      = (SubmitResult.alreadySubmitted, st) := by
  have hex := exists_student_walk hdup
  simp [submitPaper, htc1, htc2, hpc, htd, hteacher, hwin1, hwin2, hup, hsid, hex]

/-! ### C1: write protocol for accepted submissions -/

/-- C1, counterexample.  The claim says an accepted submission's file is
written to a temporary location and appears under the final stored path only
by an atomic rename once complete, so no partial file is ever visible there.
In the code the accepted submission of `S100` (bytes `[1,2,3]`) is written by
`open(filepath, "wb"); f.write(...)` straight at the final path
`LabA/S100/ans.pdf`: its write passes through `writeStepState ... 0`, where
the final path already holds an empty — partial — file. -/
theorem c1_counterexample :
    (submitPaper st0 "t1" "AB12CD" "S100" uploadA "10.0.0.5" 10).1 = SubmitResult.success
    ∧ (submitPaper st0 "t1" "AB12CD" "S100" uploadA "10.0.0.5" 10).2.submissions
        = writeStepState st0.submissions "LabA" "S100" "ans.pdf" [1, 2, 3] 3
    ∧ fileContent (writeStepState st0.submissions "LabA" "S100" "ans.pdf" [1, 2, 3] 0)
        "LabA" "S100" "ans.pdf" = some []
    ∧ some ([] : Bytes) ≠ some ([1, 2, 3] : Bytes) := by
  refine ⟨by decide, by decide, by decide, by decide⟩

/-- C1, amended.  The handler writes the upload directly to its final stored
path `lab/student_id/filename` with no temporary location and no rename: the
file is visible at the final path from the moment `open(.., "wb")` runs,
holding exactly the first `k` bytes after `k` bytes are written, and holds the
full content only once the write is complete. -/
theorem submission_write_direct_to_final_path (fs : List LabFile)
    (lab student fname : String) (content : Bytes) (k : Nat) :
    fileContent (writeStepState fs lab student fname content k) lab student fname
      = some (content.take k) := by
  unfold writeStepState
  exact fileContent_writeFile fs lab student fname (content.take k)

/-! ### C2: no per-address uniqueness -/

/-- C2, counterexample.  The claim says a `Submit` whose `source_address`
equals that of an already-admitted submission of the same session is rejected
(`DuplicateAddress`) even for a distinct `student_id`.  In the code `S100`
submits from `10.0.0.5` successfully, and then `S101` also submits from
`10.0.0.5` to the same session — and is admitted as well. -/
theorem c2_counterexample :
    (submitPaper st0 "t1" "AB12CD" "S100" uploadA "10.0.0.5" 10).1 = SubmitResult.success
    ∧ (submitPaper st1 "t1" "AB12CD" "S101" (some ("b.pdf", [4])) "10.0.0.5" 11).1
        = SubmitResult.success := by
  refine ⟨by decide, by decide⟩

/-- C2, amended.  The handler never consults the source address at all: the
result and resulting state of `submitPaper` are identical for any two source
addresses (the source computes only the server's own IP and, per its own
comment, tracks no per-submission IP), so duplicate detection is by
`student_id` only and a same-address distinct-student submission is admitted. -/
theorem submit_ignores_source_address (st : AppState) (tc pc sid : String)
    (uploaded : Option (String × Bytes)) (addr addr' : String) (now : Int) :
    submitPaper st tc pc sid uploaded addr now
      = submitPaper st tc pc sid uploaded addr' now := rfl

/-! ### C3: serial numbers -/

/-- C3, counterexample.  The claim says the serial assigned to an
already-admitted submission is stable.  In the code, student `B` is admitted
first and is listed with serial 1; after student `A` (which sorts before `B`)
is admitted later, the recomputed directory walk lists `A` with serial 1 and
`B` with serial 2 — `B`'s serial changed. -/
theorem c3_counterexample :
    (submitPaper st0 "t1" "AB12CD" "B" (some ("ans.pdf", [1])) "10.0.0.5" 10).1
        = SubmitResult.success
    ∧ (submitPaper stB "t1" "AB12CD" "A" (some ("a.pdf", [2])) "10.0.0.6" 11).1
        = SubmitResult.success
    ∧ walk_lab_files stB.submissions "LabA" = [⟨"B", "ans.pdf", 1⟩]
    ∧ walk_lab_files stBA.submissions "LabA"
        = [⟨"A", "a.pdf", 1⟩, ⟨"B", "ans.pdf", 2⟩] := by
  refine ⟨by decide, by decide, by decide, by decide⟩

/-- C3, amended.  Serials are not stored but recomputed by
`walk_lab_files` on every listing: for any state of the lab folder the listed
serials are exactly the contiguous sequence `1 .. M` (`M` = number of files
under the lab folder, one per successful submission), with no duplicates and
no gaps — but they are positions in the sorted walk, so an already-admitted
submission's serial can change when a later submission by a
lexicographically-earlier student is admitted. -/
theorem walk_serials_contiguous (fs : List LabFile) (lab : String) :
    (walk_lab_files fs lab).map WalkEntry.serial
      = List.range' 1 ((fs.filter (fun f => f.lab == lab)).length) := by
  unfold walk_lab_files
  rw [map_serial_assignSerials, length_sortFiles]

/-! ### C4: window enforcement -/

/-- C4, confirmed.  With a resolvable passcode, matching teacher and otherwise
well-formed inputs: a submit at `end_time + 1` second is rejected as not
active, a submit at `start_time - 1` second is rejected as not active, and a
submit with `start_time ≤ now ≤ end_time` is never rejected for window
reasons — exactly the check `start <= now <= end` of the handler. -/
theorem window_enforcement (st : AppState) (tc pc sid addr fname : String)
    (content : Bytes) (pass_info : PassInfo) (teacher_data : TeacherData) (now : Int)
    (htc1 : ¬ tc = "-- Select --") (htc2 : ¬ tc = "")
    (hpc : dictGet pc st.active_passcodes = some pass_info)
    (hteacher : pass_info.teacher = tc)
    (htd : dictGet tc st.teachers = some teacher_data) :
    (now = pass_info.end_ + 1 →
      (submitPaper st tc pc sid (some (fname, content)) addr now).1
        = SubmitResult.examNotActive)
    ∧ (now = pass_info.start - 1 →
      (submitPaper st tc pc sid (some (fname, content)) addr now).1
        = SubmitResult.examNotActive)
    ∧ (pass_info.start ≤ now → now ≤ pass_info.end_ →
      (submitPaper st tc pc sid (some (fname, content)) addr now).1
        ≠ SubmitResult.examNotActive) := by
  refine ⟨?_, ?_, ?_⟩
  · intro hnow
    have hw : ¬ (pass_info.start ≤ now ∧ now ≤ pass_info.end_) := by
      rintro ⟨h1, h2⟩
      omega
    simp [submitPaper, htc1, htc2, hpc, htd, hteacher, hw]
  · intro hnow
    have hw : ¬ (pass_info.start ≤ now ∧ now ≤ pass_info.end_) := by
      rintro ⟨h1, h2⟩
      omega
    simp [submitPaper, htc1, htc2, hpc, htd, hteacher, hw]
  · intro h1 h2
    by_cases hu : teacher_data.uploads_allowed = true
    · by_cases hs : sid = ""
      · simp [submitPaper, htc1, htc2, hpc, htd, hteacher, h1, h2, hu, hs]
      · by_cases hdup : ∃ e ∈ walk_lab_files st.submissions teacher_data.lab,
            e.student = sid
        · simp [submitPaper, htc1, htc2, hpc, htd, hteacher, h1, h2, hu, hs, hdup]
        · simp [submitPaper, htc1, htc2, hpc, htd, hteacher, h1, h2, hu, hs, hdup]
    · simp [submitPaper, htc1, htc2, hpc, htd, hteacher, h1, h2, hu]

/-- C4, witness: against `st0`'s session (window `[0, 100]`), a submit at 101
and at -1 is rejected as not active, and a submit at 50 is not
window-rejected. -/
theorem c4_witness :
    ((submitPaper st0 "t1" "AB12CD" "S1" (some ("a.pdf", [1])) "10.0.0.5" 101).1
        = SubmitResult.examNotActive)
    ∧ ((submitPaper st0 "t1" "AB12CD" "S1" (some ("a.pdf", [1])) "10.0.0.5" (-1)).1
        = SubmitResult.examNotActive)
    ∧ ((submitPaper st0 "t1" "AB12CD" "S1" (some ("a.pdf", [1])) "10.0.0.5" 50).1
        ≠ SubmitResult.examNotActive) :=
  ⟨(window_enforcement st0 "t1" "AB12CD" "S1" "10.0.0.5" "a.pdf" [1] pi1 td1 101
      (by decide) (by decide) (by decide) (by decide) (by decide)).1 (by decide),
   (window_enforcement st0 "t1" "AB12CD" "S1" "10.0.0.5" "a.pdf" [1] pi1 td1 (-1)
      (by decide) (by decide) (by decide) (by decide) (by decide)).2.1 (by decide),
   (window_enforcement st0 "t1" "AB12CD" "S1" "10.0.0.5" "a.pdf" [1] pi1 td1 50
      (by decide) (by decide) (by decide) (by decide) (by decide)).2.2
      (by decide) (by decide)⟩

/-! ### C5: per-student uniqueness within the lab -/

/-- C5, confirmed.  If some stored submission under the teacher's lab folder
already carries this `student_id`, the handler — whatever the source address —
answers "You have already submitted your paper." and the stored submissions
are unchanged (the state is returned as-is). -/
theorem duplicate_student_rejected (st : AppState) (tc pc sid addr fname : String)
    (content : Bytes) (pass_info : PassInfo) (teacher_data : TeacherData) (now : Int)
    (htc1 : ¬ tc = "-- Select --") (htc2 : ¬ tc = "")
    (hpc : dictGet pc st.active_passcodes = some pass_info)
    (hteacher : pass_info.teacher = tc)
    (htd : dictGet tc st.teachers = some teacher_data)
    (hwin1 : pass_info.start ≤ now) (hwin2 : now ≤ pass_info.end_)
    (hup : teacher_data.uploads_allowed = true) (hsid : ¬ sid = "")
    (hdup : ∃ f ∈ st.submissions, f.lab = teacher_data.lab ∧ f.student = sid) :
    submitPaper st tc pc sid (some (fname, content)) addr now
      = (SubmitResult.alreadySubmitted, st) :=
  submit_rejects_existing_student st tc pc sid addr fname content pass_info teacher_data
    now htc1 htc2 hpc hteacher htd hwin1 hwin2 hup hsid hdup

/-- C5, witness: after `S100`'s accepted submission from `10.0.0.5`, a second
submit by `S100` from the different address `10.0.0.9` is rejected as a
duplicate and the state is unchanged. -/
theorem c5_witness :
    submitPaper st1 "t1" "AB12CD" "S100" (some ("x.pdf", [9])) "10.0.0.9" 12
      = (SubmitResult.alreadySubmitted, st1) :=
  duplicate_student_rejected st1 "t1" "AB12CD" "S100" "10.0.0.9" "x.pdf" [9] pi1 td1 12
    (by decide) (by decide) (by decide) (by decide) (by decide) (by decide) (by decide)
    (by decide) (by decide) (by decide)

/-! ### C6: extensions and already-generated passcodes -/

/-- `Extend Exam` never touches the `active_passcodes` dict. -/
theorem extend_exam_active_passcodes (st : AppState) (t : String) (m : Int) :
    (extend_exam st t m).active_passcodes = st.active_passcodes := by
  unfold extend_exam
  split
  · rfl
  · split
    · rfl
    · rfl

/-- A teacher present before `Extend Exam` is still present after it. -/
theorem dictGet_teachers_extend_exam {st : AppState} {tc : String} {td : TeacherData}
    (t : String) (m : Int) (htd : dictGet tc st.teachers = some td) :
    ∃ td', dictGet tc (extend_exam st t m).teachers = some td' := by
  unfold extend_exam
  split
  · exact ⟨td, htd⟩
  · split
    · exact ⟨td, htd⟩
    · simp only [updateTeacher]
      exact dictGet_mapUpdate_isSome tc t _ htd

/-- C6, amended.  `Extend Exam` only rewrites the teacher's `exam_end`; the
submit handler checks the `start`/`end` snapshotted into the passcode entry
when the passcode was generated, so an extension has no effect on
already-generated passcodes: a submit outside the snapshotted window is still
rejected as not active, even right after an extension and regardless of the
new `exam_end`. -/
theorem extend_does_not_reopen_window (st : AppState) (t tc pc sid addr : String)
    (uploaded : Option (String × Bytes)) (m : Int) (pass_info : PassInfo)
    (teacher_data : TeacherData) (now : Int)
    (htc1 : ¬ tc = "-- Select --") (htc2 : ¬ tc = "")
    (hpc : dictGet pc st.active_passcodes = some pass_info)
    (hteacher : pass_info.teacher = tc)
    (htd : dictGet tc st.teachers = some teacher_data)
    (hwin : ¬ (pass_info.start ≤ now ∧ now ≤ pass_info.end_)) :
    (submitPaper (extend_exam st t m) tc pc sid uploaded addr now).1
      = SubmitResult.examNotActive := by
  obtain ⟨td', htd'⟩ := dictGet_teachers_extend_exam t m htd
  have hpc' : dictGet pc (extend_exam st t m).active_passcodes = some pass_info := by
    rw [extend_exam_active_passcodes]
    exact hpc
  simp [submitPaper, htc1, htc2, hpc', htd', hteacher, hwin]

/-- C6, counterexample.  The claim says an extension takes effect for
subsequent submits.  Teacher `t1` generates passcode `NEWC0D` (snapshotting
window `[0, 100]`) and then extends the exam by 1 minute, so `exam_end`
becomes 160 — yet a submit at time 130, before the new end and after the old
one, is still rejected as not active. -/
theorem c6_counterexample :
    (dictGet "t1" stExt.teachers).map TeacherData.exam_end = some (some 160)
    ∧ (dictGet "NEWC0D" stExt.active_passcodes).map PassInfo.end_ = some 100
    ∧ ((130 : Int) ≤ 160)
    ∧ (submitPaper stExt "t1" "NEWC0D" "S100" uploadA "10.0.0.5" 130).1
        = SubmitResult.examNotActive := by
  refine ⟨by decide, by decide, by decide, by decide⟩

/-- C6, witness for the amended theorem, at the same concrete scenario. -/
theorem c6_witness :
    (submitPaper stExt "t1" "NEWC0D" "S100" uploadA "10.0.0.5" 130).1
      = SubmitResult.examNotActive :=
  extend_does_not_reopen_window stGen "t1" "t1" "NEWC0D" "S100" "10.0.0.5" uploadA 1
    ⟨"t1", "LabA", 0, 100⟩ td1 130 (by decide) (by decide) (by decide) (by decide)
    (by decide) (by decide)

/-! ### C7: no rollback after a failed write -/

/-- C7, counterexample.  The claim says that after a storage failure a retry
with the same `student_id` succeeds.  `S100`'s submission to `st0` would be
accepted; if its write fails right after `open` (0 of 3 bytes written), the
truncated empty file stays at the final path, and `S100`'s retry is rejected
as already submitted instead of succeeding. -/
theorem c7_counterexample :
    (submitPaper st0 "t1" "AB12CD" "S100" uploadA "10.0.0.5" 10).1 = SubmitResult.success
    ∧ fileContent stFail.submissions "LabA" "S100" "ans.pdf" = some []
    ∧ (submitPaper stFail "t1" "AB12CD" "S100" uploadA "10.0.0.5" 12).1
        = SubmitResult.alreadySubmitted := by
  refine ⟨by decide, by decide, by decide⟩

/-- C7, amended.  There is no reservation to release and no cleanup on
failure: a write that fails after `k` bytes leaves the file visible under the
final path, and any retry with the same `student_id` (whatever file it
uploads, from whatever address) is rejected as already submitted. -/
theorem failed_write_blocks_retry (st : AppState)
    (tc pc sid addr fname fname' : String) (content content' : Bytes) (k : Nat)
    (pass_info : PassInfo) (teacher_data : TeacherData) (now : Int)
    (htc1 : ¬ tc = "-- Select --") (htc2 : ¬ tc = "")
    (hpc : dictGet pc st.active_passcodes = some pass_info)
    (hteacher : pass_info.teacher = tc)
    (htd : dictGet tc st.teachers = some teacher_data)
    (hwin1 : pass_info.start ≤ now) (hwin2 : now ≤ pass_info.end_)
    (hup : teacher_data.uploads_allowed = true) (hsid : ¬ sid = "") :
    (submitPaper
        { st with submissions :=
            writeStepState st.submissions teacher_data.lab sid fname content k }
        tc pc sid (some (fname', content')) addr now).1
      = SubmitResult.alreadySubmitted := by
  have hdup : ∃ f ∈ writeStepState st.submissions teacher_data.lab sid fname content k,
      f.lab = teacher_data.lab ∧ f.student = sid := by
    refine ⟨⟨teacher_data.lab, sid, fname, content.take k⟩, ?_, rfl, rfl⟩
    unfold writeStepState writeFile
    exact List.mem_append_right _ (by simp)
  have hrun := submit_rejects_existing_student
    { st with submissions := writeStepState st.submissions teacher_data.lab sid fname content k }
    tc pc sid addr fname' content' pass_info teacher_data now htc1 htc2 hpc hteacher htd
    hwin1 hwin2 hup hsid hdup
  rw [hrun]

/-- C7, witness: the amended theorem at the concrete failed-write state. -/
theorem c7_witness :
    (submitPaper
        { st0 with submissions :=
            writeStepState st0.submissions "LabA" "S100" "ans.pdf" [1, 2, 3] 0 }
        "t1" "AB12CD" "S100" (some ("retry.pdf", [7])) "10.0.0.5" 12).1
      = SubmitResult.alreadySubmitted :=
  failed_write_blocks_retry st0 "t1" "AB12CD" "S100" "10.0.0.5" "ans.pdf" "retry.pdf"
    [1, 2, 3] [7] 0 pi1 td1 12 (by decide) (by decide) (by decide) (by decide)
    (by decide) (by decide) (by decide) (by decide) (by decide)

/-! ### C8: passcode generation and collisions -/

/-- C8, counterexample.  The claim says generation never yields a passcode
equal to a currently active one (retrying on collision).  `AB12CD` is a
possible outcome of `gen_passcode` (six draws from the alphabet) while
`AB12CD` is already `t1`'s active passcode; when `t2` generates it, the code
is stored anyway and now resolves to `t2`'s session — the old entry is
overwritten, with no retry. -/
theorem c8_counterexample :
    gen_passcode ['A', 'B', '1', '2', 'C', 'D'] = "AB12CD"
    ∧ (['A', 'B', '1', '2', 'C', 'D'].all (fun c => passcodeAlphabet.contains c)) = true
    ∧ ['A', 'B', '1', '2', 'C', 'D'].length = 6
    ∧ (dictGet "AB12CD" st0.active_passcodes).map PassInfo.teacher = some "t1"
    ∧ (dictGet "AB12CD"
          (generate_passcode st0 "t2" (gen_passcode ['A', 'B', '1', '2', 'C', 'D'])
            0).active_passcodes).map PassInfo.teacher = some "t2" := by
  refine ⟨by decide, by decide, by decide, by decide, by decide⟩

/-- C8, amended.  `gen_passcode` draws six random characters with no check
against active passcodes, and storing the new code is an unconditional dict
assignment: even when the drawn code is a currently active session's
passcode, the generating teacher's new entry replaces it. -/
theorem passcode_overwrite_on_collision (st : AppState) (t code : String) (now : Int)
    (teacher_data : TeacherData) (pass_info : PassInfo)
    (htd : dictGet t st.teachers = some teacher_data)
    (hcol : dictGet code st.active_passcodes = some pass_info) :
    dictGet code (generate_passcode st t code now).active_passcodes
      = some { teacher := t, lab := teacher_data.lab,
               start := teacher_data.exam_start.getD now,
               end_ := teacher_data.exam_end.getD (now + 3600) } := by
  unfold generate_passcode
  rw [htd]
  exact dictGet_dictSet_self code _ st.active_passcodes

/-- C8, witness: `t2` draws the already-active `AB12CD`; the stored entry is
`t2`'s. -/
theorem c8_witness :
    dictGet "AB12CD" (generate_passcode st0 "t2" "AB12CD" 0).active_passcodes
      = some { teacher := "t2", lab := "LabB", start := 0, end_ := 100 } :=
  passcode_overwrite_on_collision st0 "t2" "AB12CD" 0 td2 pi1 (by decide) (by decide)

/-! ### C9: the uploads mutation is a toggle, not an idempotent setter -/

/-- Effect of one press of "Toggle Uploads" on the pressing teacher's entry. -/
theorem dictGet_toggle_uploads (st : AppState) (t : String) (td : TeacherData)
    (htd : dictGet t st.teachers = some td) :
    dictGet t (toggle_uploads st t).teachers
      = some { td with uploads_allowed := !td.uploads_allowed } := by
  unfold toggle_uploads
  rw [htd]
  simp only [updateTeacher]
  rw [dictGet_mapUpdate_self, htd]
  rfl

/-- C9, counterexample.  The claim says the uploads mutation is idempotent.
The code's only uploads mutation is a toggle: pressing it twice leaves `t1`'s
flag different from pressing it once. -/
theorem c9_counterexample :
    (dictGet "t1" (toggle_uploads (toggle_uploads st0 "t1") "t1").teachers).map
        TeacherData.uploads_allowed
      ≠ (dictGet "t1" (toggle_uploads st0 "t1").teachers).map
          TeacherData.uploads_allowed := by
  decide

/-- C9, amended.  The uploads mutation takes no boolean argument: it is the
toggle `uploads_allowed := not uploads_allowed`.  It is an involution, not
idempotent: one press flips the teacher's flag, a second press restores the
starting value (and a press never touches other teachers' entries, by
`dictGet_mapUpdate_ne`). -/
theorem toggle_uploads_involution (st : AppState) (t : String) (td : TeacherData)
    (htd : dictGet t st.teachers = some td) :
    (dictGet t (toggle_uploads st t).teachers).map TeacherData.uploads_allowed
        = some (!td.uploads_allowed)
    ∧ (dictGet t (toggle_uploads (toggle_uploads st t) t).teachers).map
        TeacherData.uploads_allowed = some td.uploads_allowed := by
  have h1 := dictGet_toggle_uploads st t td htd
  have h2 := dictGet_toggle_uploads (toggle_uploads st t) t _ h1
  constructor
  · simp [h1]
  · rw [h2]
    simp

/-- C9, witness: `t1` starts with uploads enabled; one press disables, two
presses re-enable. -/
theorem c9_witness :
    (dictGet "t1" (toggle_uploads st0 "t1").teachers).map TeacherData.uploads_allowed
        = some false
    ∧ (dictGet "t1" (toggle_uploads (toggle_uploads st0 "t1") "t1").teachers).map
        TeacherData.uploads_allowed = some true :=
  toggle_uploads_involution st0 "t1" td1 (by decide)

/-! ### C10: duplicate detection is scoped to the lab name -/

/-- C10, confirmed.  The duplicate check walks `SUBMISSIONS_ROOT/<lab>` for
the teacher's lab name, not a per-session store: a student with any stored
submission under that lab folder is rejected by any session of a teacher with
that lab name — including a freshly generated passcode, i.e. a different
session. -/
theorem duplicate_across_sessions (st : AppState) (t code sid addr fname : String)
    (content : Bytes) (teacher_data : TeacherData) (now now' : Int)
    (ht1 : ¬ t = "-- Select --") (ht2 : ¬ t = "")
    (htd : dictGet t st.teachers = some teacher_data)
    (hw1 : teacher_data.exam_start.getD now ≤ now')
    (hw2 : now' ≤ teacher_data.exam_end.getD (now + 3600))
    (hup : teacher_data.uploads_allowed = true)
    (hsid : ¬ sid = "")
    (hdup : ∃ f ∈ st.submissions, f.lab = teacher_data.lab ∧ f.student = sid) :
    submitPaper (generate_passcode st t code now) t code sid (some (fname, content))
        addr now'
      = (SubmitResult.alreadySubmitted, generate_passcode st t code now) := by
  have hgen : (generate_passcode st t code now).active_passcodes
      = dictSet code
          { teacher := t, lab := teacher_data.lab,
            start := teacher_data.exam_start.getD now,
            end_ := teacher_data.exam_end.getD (now + 3600) }
          st.active_passcodes := by
    unfold generate_passcode
    rw [htd]
  have hteach : (generate_passcode st t code now).teachers = st.teachers := by
    unfold generate_passcode
    rw [htd]
  have hsubs : (generate_passcode st t code now).submissions = st.submissions := by
    unfold generate_passcode
    rw [htd]
  refine submit_rejects_existing_student _ t code sid addr fname content
    { teacher := t, lab := teacher_data.lab,
      start := teacher_data.exam_start.getD now,
      end_ := teacher_data.exam_end.getD (now + 3600) }
    teacher_data now' ht1 ht2 ?_ rfl ?_ hw1 hw2 hup hsid ?_
  · rw [hgen]
    exact dictGet_dictSet_self _ _ _
  · rw [hteach]
    exact htd
  · rw [hsubs]
    exact hdup

/-- C10, witness: `S100` already submitted under `LabA` via passcode
`AB12CD`; `t1` generates the fresh passcode `ZZ99XX`, a new session with the
same lab name, and `S100`'s submit through it is rejected as a duplicate. -/
theorem c10_witness :
    submitPaper (generate_passcode st1 "t1" "ZZ99XX" 10) "t1" "ZZ99XX" "S100"
        (some ("again.pdf", [5])) "10.0.0.7" 20
      = (SubmitResult.alreadySubmitted, generate_passcode st1 "t1" "ZZ99XX" 10) :=
  duplicate_across_sessions st1 "t1" "ZZ99XX" "S100" "10.0.0.7" "again.pdf" [5] td1 10 20
    (by decide) (by decide) (by decide) (by decide) (by decide) (by decide) (by decide)
    (by decide)

end LabExams
